import Mathlib

/-!
Shallow embedding of the risk-scoring engine of the repository: the company
bankruptcy models of `backend/app/financial_models/financial_models.py`, the
validation and orchestration of `backend/app/financial_models/model.py`, and
the individual credit-scoring model of
`backend/app/financial_models/individual_models.py`.

Python `Dict[str, float]` inputs are modelled as association lists over ℚ;
`d.get(k, default)` is `dictGet`; a function that raises `ValueError` returns
`Except String`.
-/

/-- A Python `Dict[str, float]` of financial figures, as an association list. -/
abbrev FinancialData := List (String × ℚ)

/-- Python `d.get(k, default)`. -/
def dictGet (d : FinancialData) (k : String) (default : ℚ) : ℚ :=
  (List.lookup k d).getD default

/-- Python `k in d`. -/
def hasField (d : FinancialData) (k : String) : Bool :=
  (List.lookup k d).isSome

/-! Threshold constants of `financial_models.py` and `individual_models.py`. -/

def ALTMAN_SAFE_THRESHOLD : ℚ := 2.99

def ALTMAN_GRAY_THRESHOLD : ℚ := 1.81

def TAFFLER_LOW_RISK_THRESHOLD : ℚ := 0.2

def TAFFLER_MEDIUM_RISK_THRESHOLD : ℚ := 0.0

def INDIVIDUAL_LOW_RISK_THRESHOLD : ℚ := 700

def INDIVIDUAL_MEDIUM_RISK_THRESHOLD : ℚ := 500

/-! String constants: the recommendation texts and error messages of the
source, with Python's implicit string-literal concatenation performed. -/

def altmanRecLow : String :=
  "Низкий риск банкротства. Компания находится в безопасной зоне."

def altmanRecMedium : String :=
  "Средний риск банкротства. Компания находится в серой зоне. Требуется дополнительный мониторинг."

def altmanRecHigh : String :=
  "Высокий риск банкротства. Компания находится в зоне опасности. Требуются срочные меры."

def tafflerRecLow : String :=
  "Низкий риск банкротства. Финансовое положение компании стабильное."

def tafflerRecMedium : String :=
  "Средний риск банкротства. Требуется внимательный мониторинг финансовых показателей."

def tafflerRecHigh : String :=
  "Высокий риск банкротства. Финансовое положение компании критическое."

def combinedRecLow : String :=
  "Обе модели показывают низкий риск банкротства. Компания находится в стабильном финансовом положении."

def combinedRecMedium : String :=
  "Модели показывают средний уровень риска. Рекомендуется регулярный мониторинг финансовых показателей и принятие мер по улучшению финансового состояния."

def combinedRecHigh : String :=
  "Обе модели указывают на высокий риск банкротства. Требуются срочные меры по стабилизации финансового положения компании."

def individualRecLow : String :=
  "Низкий кредитный риск. Заемщик имеет хорошую платежеспособность и кредитную историю. Кредит может быть одобрен на выгодных условиях."

def individualRecMedium : String :=
  "Средний кредитный риск. Заемщик имеет приемлемую платежеспособность. Рекомендуется дополнительная проверка и возможно повышение процентной ставки или требование залога."

def individualRecHigh : String :=
  "Высокий кредитный риск. Заемщик имеет низкую платежеспособность или плохую кредитную историю. Рекомендуется отказ в кредите или требование значительного залога и повышенной процентной ставки."

def errTotalAssets : String := "Общие активы должны быть положительными"

def errTotalLiabilities : String := "Общие обязательства должны быть положительными"

def errCurrentLiabilities : String := "Текущие обязательства должны быть положительными"

def errIncome : String := "Месячный доход должен быть положительным"

def errExpenses : String := "Месячные расходы должны быть положительными"

def errHistory : String := "Оценка кредитной истории должна быть от 0 до 1"

def errAge : String := "Возраст должен быть от 18 до 100 лет"

def altmanErrWrap : String := "Ошибка расчета модели Альтмана: "

def tafflerErrWrap : String := "Ошибка расчета модели Таффлера: "

def individualErrWrap : String := "Ошибка расчета модели: "

def modelErrWrap : String := "Ошибка при выполнении расчета: "

def msgMissingFields : String := "Отсутствуют обязательные поля: "

/-- Python `f"Поле {field} должно быть положительным числом"`. -/
def msgPositiveField (field : String) : String :=
  "Поле " ++ field ++ " должно быть положительным числом"

/-! The risk classification if-chains of `financial_models.py` (the bodies of
the `if z_score > ...` cascades in `calculate_altman_z_score`,
`calculate_taffler_score` and `calculate_combined_risk`). -/

/-- Risk level assigned to an Altman z-score (lines 77-91 of
`financial_models.py`, also recomputed in `calculate_combined_risk`). -/
def altman_risk_level (z_score : ℚ) : String :=
  if z_score > ALTMAN_SAFE_THRESHOLD then "low"
  else if z_score > ALTMAN_GRAY_THRESHOLD then "medium"
  else "high"

/-- Risk level assigned to a Taffler z-score (lines 157-170 of
`financial_models.py`, also recomputed in `calculate_combined_risk`). -/
def taffler_risk_level (z_score : ℚ) : String :=
  if z_score > TAFFLER_LOW_RISK_THRESHOLD then "low"
  else if z_score > TAFFLER_MEDIUM_RISK_THRESHOLD then "medium"
  else "high"

/-- Python `calculate_altman_z_score` of `financial_models.py`. -/
def calculate_altman_z_score (financial_data : FinancialData) :
    Except String (ℚ × String × String) :=
  let working_capital := dictGet financial_data "working_capital" 0
  let total_assets := dictGet financial_data "total_assets" 1
  let retained_earnings := dictGet financial_data "retained_earnings" 0
  let ebit := dictGet financial_data "ebit" 0
  let market_value_equity := dictGet financial_data "market_value_equity" 0
  let total_liabilities := dictGet financial_data "total_liabilities" 1
  let sales := dictGet financial_data "sales" 0
  if total_assets ≤ 0 then .error (altmanErrWrap ++ errTotalAssets)
  else if total_liabilities ≤ 0 then .error (altmanErrWrap ++ errTotalLiabilities)
  else
    let x1 := working_capital / total_assets
    let x2 := retained_earnings / total_assets
    let x3 := ebit / total_assets
    let x4 := market_value_equity / total_liabilities
    let x5 := sales / total_assets
    let z_score := 1.2 * x1 + 1.4 * x2 + 3.3 * x3 + 0.6 * x4 + 1.0 * x5
    let risk_level := altman_risk_level z_score
    let recommendation :=
      if risk_level = "low" then altmanRecLow
      else if risk_level = "medium" then altmanRecMedium
      else altmanRecHigh
    .ok (z_score, risk_level, recommendation)

/-- Python `calculate_taffler_score` of `financial_models.py`. -/
def calculate_taffler_score (financial_data : FinancialData) :
    Except String (ℚ × String × String) :=
  let profit_before_tax := dictGet financial_data "profit_before_tax" 0
  let current_liabilities := dictGet financial_data "current_liabilities" 1
  let current_assets := dictGet financial_data "current_assets" 0
  let total_liabilities := dictGet financial_data "total_liabilities" 1
  let total_assets := dictGet financial_data "total_assets" 1
  let operating_income := dictGet financial_data "operating_income" 0
  if total_assets ≤ 0 then .error (tafflerErrWrap ++ errTotalAssets)
  else if current_liabilities ≤ 0 then .error (tafflerErrWrap ++ errCurrentLiabilities)
  else if total_liabilities ≤ 0 then .error (tafflerErrWrap ++ errTotalLiabilities)
  else
    let x1 := profit_before_tax / current_liabilities
    let x2 := current_assets / total_liabilities
    let x3 := current_liabilities / total_assets
    let x4 := (operating_income / total_assets) * 100
    let z_score := 3.2 + 12.18 * x1 + 2.50 * x2 - 10.68 * x3 + 0.029 * x4
    let risk_level := taffler_risk_level z_score
    let recommendation :=
      if risk_level = "low" then tafflerRecLow
      else if risk_level = "medium" then tafflerRecMedium
      else tafflerRecHigh
    .ok (z_score, risk_level, recommendation)

/-- Python dict `risk_values = {"low": 1, "medium": 2, "high": 3}` of
`calculate_combined_risk` (only ever indexed with these three keys). -/
def risk_values (level : String) : ℕ :=
  if level = "low" then 1 else if level = "medium" then 2 else 3

/-- Python dict `{1: "low", 2: "medium", 3: "high"}` of
`calculate_combined_risk` (only ever indexed with 1, 2 or 3). -/
def risk_level_of_value (v : ℕ) : String :=
  if v = 1 then "low" else if v = 2 then "medium" else "high"

/-- Python `calculate_combined_risk` of `financial_models.py`. -/
def calculate_combined_risk (altman_score taffler_score : ℚ) : String × String :=
  let altman_risk := altman_risk_level altman_score
  let taffler_risk := taffler_risk_level taffler_score
  let altman_value := risk_values altman_risk
  let taffler_value := risk_values taffler_risk
  let combined_value := max altman_value taffler_value
  let combined_risk_level := risk_level_of_value combined_value
  let recommendation :=
    if combined_risk_level = "low" then combinedRecLow
    else if combined_risk_level = "medium" then combinedRecMedium
    else combinedRecHigh
  (combined_risk_level, recommendation)

/-! Required-field lists of `model.py`. -/

def REQUIRED_FIELDS_ALTMAN : List String :=
  ["current_assets", "current_liabilities", "debt_capital", "liabilities"]

def REQUIRED_FIELDS_TAFFLER : List String :=
  ["sales_profit", "short_term_liabilities", "current_assets",
   "liabilities", "long_term_liabilities", "total_assets", "sales"]

def POSITIVE_FIELDS : List String :=
  ["current_liabilities", "liabilities", "short_term_liabilities", "total_assets"]

/-- Python `set(REQUIRED_FIELDS_ALTMAN + REQUIRED_FIELDS_TAFFLER)`: the union
of the two required-field lists, with duplicates removed (set semantics). -/
def all_required_fields : List String :=
  (REQUIRED_FIELDS_ALTMAN ++ REQUIRED_FIELDS_TAFFLER).dedup

/-- Lexicographic comparison of character lists by code point, the order
Python's `sorted` uses on strings. -/
def charsLe : List Char → List Char → Bool
  | [], _ => true
  | _ :: _, [] => false
  | a :: as, b :: bs =>
    if a.toNat < b.toNat then true
    else if b.toNat < a.toNat then false
    else charsLe as bs

/-- Python string comparison `s <= t` (lexicographic by code point). -/
def strLe (s t : String) : Bool := charsLe s.data t.data

/-- The order relation `strLe` as a Prop, for `List.insertionSort`. -/
def strLeRel (s t : String) : Prop := strLe s t = true

instance : DecidableRel strLeRel := fun s t => instDecidableEqBool (strLe s t) true

/-- Python `', '.join(sorted(fields))`. -/
def sortedJoin (fields : List String) : String :=
  String.intercalate ", " (List.insertionSort strLeRel fields)

/-- Python `validate_financial_data` of `model.py`. -/
def validate_financial_data (financial_data : FinancialData) : Bool × Option String :=
  let missing_fields := all_required_fields.filter (fun f => ! hasField financial_data f)
  if missing_fields.isEmpty then
    match POSITIVE_FIELDS.find?
        (fun f => hasField financial_data f && decide (dictGet financial_data f 0 ≤ 0)) with
    | some f => (false, some (msgPositiveField f))
    | none => (true, none)
  else
    (false, some (msgMissingFields ++ sortedJoin missing_fields))

/-- Python's `round(q, ndigits)` on the scaled value: round half to even. -/
def roundHalfEven (q : ℚ) : ℤ :=
  let f := ⌊q⌋
  if q - f < 1 / 2 then f
  else if 1 / 2 < q - f then f + 1
  else if f % 2 = 0 then f else f + 1

/-- Python `round(q, ndigits)` for a non-negative number of digits. -/
def pyRound (q : ℚ) (ndigits : ℕ) : ℚ :=
  (roundHalfEven (q * 10 ^ ndigits) : ℚ) / 10 ^ ndigits

/-- The result dictionary of `calculate_bankruptcy_risk` in `model.py`. -/
structure CompanyResult where
  altman_z_score : ℚ
  altman_risk_level : String
  altman_recommendation : String
  taffler_z_score : ℚ
  taffler_risk_level : String
  taffler_recommendation : String
  combined_risk_level : String
  combined_recommendation : String
deriving Repr, DecidableEq

/-- Python dict comprehension restricting `financial_data` to the keys of
`fields` (each key is present after validation). -/
def restrictKeys (financial_data : FinancialData) (fields : List String) : FinancialData :=
  fields.filterMap (fun k => (List.lookup k financial_data).map (fun v => (k, v)))

/-- Python `calculate_bankruptcy_risk` of `model.py`. -/
def calculate_bankruptcy_risk (financial_data : FinancialData) :
    Except String CompanyResult :=
  match validate_financial_data financial_data with
  | (false, error_message) => .error (error_message.getD "")
  | (true, _) =>
    let altman_data := restrictKeys financial_data REQUIRED_FIELDS_ALTMAN
    match calculate_altman_z_score altman_data with
    | .error e => .error (modelErrWrap ++ e)
    | .ok (altman_score, altman_risk, altman_rec) =>
      let taffler_data := restrictKeys financial_data REQUIRED_FIELDS_TAFFLER
      match calculate_taffler_score taffler_data with
      | .error e => .error (modelErrWrap ++ e)
      | .ok (taffler_score, taffler_risk, taffler_rec) =>
        let combined := calculate_combined_risk altman_score taffler_score
        .ok {
          altman_z_score := pyRound altman_score 4
          altman_risk_level := altman_risk
          altman_recommendation := altman_rec
          taffler_z_score := pyRound taffler_score 4
          taffler_risk_level := taffler_risk
          taffler_recommendation := taffler_rec
          combined_risk_level := combined.1
          combined_recommendation := combined.2 }

/-- Python `min(a, b)` on two floats: the first argument on ties. -/
def pyMin (a b : ℚ) : ℚ := if a ≤ b then a else b

/-- Python `max(a, b)` on two floats: the first argument on ties. -/
def pyMax (a b : ℚ) : ℚ := if b ≤ a then a else b

/-- Python `calculate_individual_credit_score` of `individual_models.py`. -/
def calculate_individual_credit_score (financial_data : FinancialData) :
    Except String (ℚ × String × String) :=
  let monthly_income := dictGet financial_data "monthly_income" 0
  let monthly_expenses := dictGet financial_data "monthly_expenses" 1
  let credit_amount := dictGet financial_data "credit_amount" 0
  let credit_history_score := dictGet financial_data "credit_history_score" 0
  let has_collateral := dictGet financial_data "has_collateral" 0
  let employment_years := dictGet financial_data "employment_years" 0
  let age := dictGet financial_data "age" 30
  if monthly_income ≤ 0 then .error (individualErrWrap ++ errIncome)
  else if monthly_expenses ≤ 0 then .error (individualErrWrap ++ errExpenses)
  else if credit_history_score < 0 ∨ 1 < credit_history_score then
    .error (individualErrWrap ++ errHistory)
  else if age < 18 ∨ 100 < age then .error (individualErrWrap ++ errAge)
  else
    let income_to_expense := pyMin (monthly_income / monthly_expenses) 3.0
    let debt_to_income :=
      pyMin (if 0 < monthly_income then credit_amount / monthly_income else 10) 10.0
    let employment_capped := pyMin employment_years 20
    let base_score : ℚ := 300
    let income_score := income_to_expense * 200
    let history_score := credit_history_score * 150
    let collateral_score := has_collateral * 100
    let employment_score := employment_capped * 50 / 20
    let age_penalty := (age / 10) * 20
    let debt_penalty := debt_to_income * 100
    let raw_score := base_score + income_score + history_score + collateral_score +
      employment_score - age_penalty - debt_penalty
    let credit_score := pyMax 300 (pyMin 850 raw_score)
    if credit_score > INDIVIDUAL_LOW_RISK_THRESHOLD then
      .ok (credit_score, "low", individualRecLow)
    else if credit_score > INDIVIDUAL_MEDIUM_RISK_THRESHOLD then
      .ok (credit_score, "medium", individualRecMedium)
    else .ok (credit_score, "high", individualRecHigh)

/-- Python `calculate_individual_risk` of `model.py`. -/
def calculate_individual_risk (individual_data : FinancialData) :
    Except String (ℚ × String × String) :=
  match calculate_individual_credit_score individual_data with
  | .error e => .error (modelErrWrap ++ e)
  | .ok (credit_score, risk_level, recommendation) =>
    .ok (pyRound credit_score 2, risk_level, recommendation)

/-- Modelled from the spec: company model A of section 4.2,
`score = c0 + w1 * (current_assets / current_liabilities) +
w2 * (debt_capital / liabilities)` with `c0 = -0.3877, w1 = -1.0736,
w2 = 0.0579`, stated here only to compare against what the code computes. -/
def spec_model_a_score (d : FinancialData) : ℚ :=
  -0.3877 + (-1.0736) * (dictGet d "current_assets" 0 / dictGet d "current_liabilities" 0)
    + 0.0579 * (dictGet d "debt_capital" 0 / dictGet d "liabilities" 0)

/-- Modelled from the spec: company model B of section 4.2,
`score = w1 * (sales_profit / short_term_liabilities) + w2 * (current_assets /
liabilities) + w3 * (long_term_liabilities / total_assets) + w4 * (sales /
total_assets)` with `w1 = 0.53, w2 = 0.13, w3 = 0.18, w4 = 0.16`, stated here
only to compare against what the code computes. -/
def spec_model_b_score (d : FinancialData) : ℚ :=
  0.53 * (dictGet d "sales_profit" 0 / dictGet d "short_term_liabilities" 0)
    + 0.13 * (dictGet d "current_assets" 0 / dictGet d "liabilities" 0)
    + 0.18 * (dictGet d "long_term_liabilities" 0 / dictGet d "total_assets" 0)
    + 0.16 * (dictGet d "sales" 0 / dictGet d "total_assets" 0)

/-! Concrete example inputs used by the claims. -/

/-- The model A example input of the spec's section 8. -/
def exampleAltmanInput : FinancialData :=
  [("current_assets", 700000), ("current_liabilities", 200000),
   ("debt_capital", 500000), ("liabilities", 800000)]

/-- A concrete input supplying every field of `REQUIRED_FIELDS_TAFFLER`. -/
def exampleTafflerInput : FinancialData :=
  [("sales_profit", 100), ("short_term_liabilities", 200), ("current_assets", 300),
   ("liabilities", 400), ("long_term_liabilities", 100), ("total_assets", 1000),
   ("sales", 500)]

/-- The extreme individual input of the spec's section 8. -/
def extremeIndividualInput : FinancialData :=
  [("monthly_income", 1), ("monthly_expenses", 1000000), ("age", 100),
   ("credit_amount", 10000000)]

/-- The individual example input of the spec's section 8 with the `age` key
left out. -/
def missingAgeIndividualInput : FinancialData :=
  [("monthly_income", 100000), ("monthly_expenses", 60000), ("credit_amount", 500000),
   ("credit_history_score", 0.8), ("has_collateral", 1), ("employment_years", 5)]

/-- A fully valid company input: every required field present, set to 1. -/
def validCompanyInput : FinancialData :=
  [("current_assets", 1), ("current_liabilities", 1), ("debt_capital", 1),
   ("liabilities", 1), ("sales_profit", 1), ("short_term_liabilities", 1),
   ("long_term_liabilities", 1), ("total_assets", 1), ("sales", 1)]

/-! Helper lemmas. -/

/-- Clamping with `max(300, min(850, x))` lands in the closed interval. -/
lemma pyClamp_bounds (x : ℚ) :
    300 ≤ pyMax 300 (pyMin 850 x) ∧ pyMax 300 (pyMin 850 x) ≤ 850 := by
  unfold pyMax pyMin
  constructor <;> split_ifs <;> linarith

/-- The three-way threshold classifier used by both company models, described
by the interval each tier occupies. -/
lemma classifier_iff (lo hi s : ℚ) (hlt : lo < hi) :
    ((if s > hi then "low" else if s > lo then "medium" else "high") = "low" ↔ hi < s)
    ∧ ((if s > hi then "low" else if s > lo then "medium" else "high") = "medium"
        ↔ (lo < s ∧ s ≤ hi))
    ∧ ((if s > hi then "low" else if s > lo then "medium" else "high") = "high"
        ↔ s ≤ lo) := by
  split_ifs with h1 h2
  · exact ⟨⟨fun _ => h1, fun _ => rfl⟩,
      ⟨fun h => absurd h (by decide), fun h => absurd h1 (not_lt.mpr h.2)⟩,
      ⟨fun h => absurd h (by decide), fun h => absurd (lt_trans hlt h1) (not_lt.mpr h)⟩⟩
  · exact ⟨⟨fun h => absurd h (by decide), fun h => absurd h h1⟩,
      ⟨fun _ => ⟨h2, not_lt.mp h1⟩, fun _ => rfl⟩,
      ⟨fun h => absurd h (by decide), fun h => absurd h2 (not_lt.mpr h)⟩⟩
  · exact ⟨⟨fun h => absurd h (by decide), fun h => absurd h h1⟩,
      ⟨fun h => absurd h (by decide), fun h => absurd h.1 h2⟩,
      ⟨fun _ => not_lt.mp h2, fun _ => rfl⟩⟩

/-! Claim theorems. -/

/-- C1. The spec's company model A formula
`-0.3877 - 1.0736 * (current_assets / current_liabilities) + 0.0579 *
(debt_capital / liabilities)` is not what the code computes: on the spec's own
example input, `calculate_altman_z_score` reads none of the supplied keys
(its formula uses `working_capital`, `total_assets`, ... which all default to
0 or 1) and returns the score 0 with tier "high", while the spec formula
yields -4.1091125 (the spec's display value -4.1467 is also not that number).
This theorem records the divergence at the failing input. -/
theorem C1_code_bug_eval :
    calculate_altman_z_score exampleAltmanInput = .ok (0, "high", altmanRecHigh)
    ∧ spec_model_a_score exampleAltmanInput = -(41091125 / 10000000)
    ∧ (0 : ℚ) ≠ -(41091125 / 10000000) := by
  refine ⟨?_, ?_, by norm_num⟩
  · simp [calculate_altman_z_score, exampleAltmanInput, dictGet, List.lookup,
      altman_risk_level, ALTMAN_SAFE_THRESHOLD, ALTMAN_GRAY_THRESHOLD]
    norm_num
    decide
  · simp [spec_model_a_score, exampleAltmanInput, dictGet, List.lookup]
    norm_num

/-- C3 counterexample. The claim classifies a model A score of exactly 0.0 as
"medium"; the code's classifier (thresholds 2.99 and 1.81) yields "high". -/
theorem C3_boundary_counterexample :
    altman_risk_level 0 = "high" ∧ altman_risk_level 0 ≠ "medium" := by
  have h : altman_risk_level 0 = "high" := by
    unfold altman_risk_level
    norm_num [ALTMAN_SAFE_THRESHOLD, ALTMAN_GRAY_THRESHOLD]
  exact ⟨h, by rw [h]; decide⟩

/-- C3 amended. The model A classifier of the code assigns "low" when
score > 2.99, "medium" when 1.81 < score ≤ 2.99 and "high" when
score ≤ 1.81 (not the claim's thresholds 0.0 and -0.5). -/
theorem C3_amended_thresholds (s : ℚ) :
    (altman_risk_level s = "low" ↔ ALTMAN_SAFE_THRESHOLD < s)
    ∧ (altman_risk_level s = "medium"
        ↔ (ALTMAN_GRAY_THRESHOLD < s ∧ s ≤ ALTMAN_SAFE_THRESHOLD))
    ∧ (altman_risk_level s = "high" ↔ s ≤ ALTMAN_GRAY_THRESHOLD) :=
  classifier_iff ALTMAN_GRAY_THRESHOLD ALTMAN_SAFE_THRESHOLD s
    (by norm_num [ALTMAN_GRAY_THRESHOLD, ALTMAN_SAFE_THRESHOLD])

/-- C4. The spec's company model B four-ratio formula is not what the code
computes: `calculate_taffler_score` computes `3.2 + 12.18 * x1 + 2.50 * x2 -
10.68 * x3 + 0.029 * x4` over keys (`profit_before_tax`,
`current_liabilities`, `total_liabilities`, `operating_income`, ...) largely
disjoint from the orchestrator's `REQUIRED_FIELDS_TAFFLER`. On a concrete
input supplying exactly the required fields, the code returns 753.18932 with
tier "low" while the spec formula yields 0.4605. -/
theorem C4_code_bug_eval :
    calculate_taffler_score exampleTafflerInput =
      .ok (75318932 / 100000, "low", tafflerRecLow)
    ∧ spec_model_b_score exampleTafflerInput = 4605 / 10000
    ∧ (75318932 / 100000 : ℚ) ≠ 4605 / 10000 := by
  refine ⟨?_, ?_, by norm_num⟩
  · simp [calculate_taffler_score, exampleTafflerInput, dictGet, List.lookup,
      taffler_risk_level, TAFFLER_LOW_RISK_THRESHOLD, TAFFLER_MEDIUM_RISK_THRESHOLD]
    norm_num
  · simp [spec_model_b_score, exampleTafflerInput, dictGet, List.lookup]
    norm_num

/-- C5 counterexample. The claim classifies a model B score of 0.4 as
"medium" (0.3 < 0.4 ≤ 0.5); the code's classifier (thresholds 0.2 and 0.0)
yields "low". -/
theorem C5_boundary_counterexample :
    taffler_risk_level (2 / 5) = "low" ∧ taffler_risk_level (2 / 5) ≠ "medium" := by
  have h : taffler_risk_level (2 / 5) = "low" := by
    unfold taffler_risk_level
    norm_num [TAFFLER_LOW_RISK_THRESHOLD, TAFFLER_MEDIUM_RISK_THRESHOLD]
  exact ⟨h, by rw [h]; decide⟩

/-- C5 amended. The model B classifier of the code assigns "low" when
score > 0.2, "medium" when 0.0 < score ≤ 0.2 and "high" when score ≤ 0.0
(not the claim's thresholds 0.5 and 0.3). -/
theorem C5_amended_thresholds (s : ℚ) :
    (taffler_risk_level s = "low" ↔ TAFFLER_LOW_RISK_THRESHOLD < s)
    ∧ (taffler_risk_level s = "medium"
        ↔ (TAFFLER_MEDIUM_RISK_THRESHOLD < s ∧ s ≤ TAFFLER_LOW_RISK_THRESHOLD))
    ∧ (taffler_risk_level s = "high" ↔ s ≤ TAFFLER_MEDIUM_RISK_THRESHOLD) :=
  classifier_iff TAFFLER_MEDIUM_RISK_THRESHOLD TAFFLER_LOW_RISK_THRESHOLD s
    (by norm_num [TAFFLER_MEDIUM_RISK_THRESHOLD, TAFFLER_LOW_RISK_THRESHOLD])

/-- C6. Every credit score the individual model returns lies in [300, 850],
and the spec's extreme input (income 1, expenses 1000000, age 100, credit
10000000) yields exactly 300 with tier "high". -/
theorem C6_score_clamped :
    (∀ (d : FinancialData) (q : ℚ × String × String),
        calculate_individual_credit_score d = .ok q → 300 ≤ q.1 ∧ q.1 ≤ 850)
    ∧ calculate_individual_credit_score extremeIndividualInput =
        .ok (300, "high", individualRecHigh) := by
  constructor
  · intro d q h
    unfold calculate_individual_credit_score at h
    dsimp only at h
    split_ifs at h
    all_goals rw [Except.ok.injEq] at h
    all_goals subst h
    all_goals exact pyClamp_bounds _
  · simp [calculate_individual_credit_score, extremeIndividualInput, dictGet,
      List.lookup, pyMin, pyMax, INDIVIDUAL_LOW_RISK_THRESHOLD,
      INDIVIDUAL_MEDIUM_RISK_THRESHOLD]
    norm_num

/-- C10. The individual model rejects any input whose credit history score
lies outside [0, 1] or whose age lies outside [18, 100] (no score is
computed), while a missing `age` key defaults to 30 and passes: the spec's
example individual input with `age` removed still computes a score. -/
theorem C10_individual_validity_checks :
    (∀ d : FinancialData,
        (dictGet d "credit_history_score" 0 < 0 ∨ 1 < dictGet d "credit_history_score" 0
          ∨ dictGet d "age" 30 < 18 ∨ 100 < dictGet d "age" 30) →
        ∃ e, calculate_individual_credit_score d = .error e)
    ∧ hasField missingAgeIndividualInput "age" = false
    ∧ calculate_individual_credit_score missingAgeIndividualInput =
        .ok (1835 / 6, "high", individualRecHigh) := by
  refine ⟨?_, by decide, ?_⟩
  · intro d h
    unfold calculate_individual_credit_score
    dsimp only
    split_ifs with h1 h2 h3 h4
    · exact ⟨_, rfl⟩
    · exact ⟨_, rfl⟩
    · exact ⟨_, rfl⟩
    · exact ⟨_, rfl⟩
    all_goals
      push_neg at h3 h4
      rcases h with h | h | h | h <;> linarith [h3.1, h3.2, h4.1, h4.2]
  · simp [calculate_individual_credit_score, missingAgeIndividualInput, dictGet,
      List.lookup, pyMin, pyMax, INDIVIDUAL_LOW_RISK_THRESHOLD,
      INDIVIDUAL_MEDIUM_RISK_THRESHOLD]
    norm_num

/-- The model A classifier only ever returns one of the three tier names. -/
lemma altman_risk_level_cases (s : ℚ) :
    altman_risk_level s = "low" ∨ altman_risk_level s = "medium"
      ∨ altman_risk_level s = "high" := by
  unfold altman_risk_level
  split_ifs <;> simp

/-- The model B classifier only ever returns one of the three tier names. -/
lemma taffler_risk_level_cases (s : ℚ) :
    taffler_risk_level s = "low" ∨ taffler_risk_level s = "medium"
      ∨ taffler_risk_level s = "high" := by
  unfold taffler_risk_level
  split_ifs <;> simp

/-- C7. The combined company risk is strictly worst-of-two: the ordinal
(low 1, medium 2, high 3) of the combined tier is the maximum of the two
models' tier ordinals, the combined recommendation is one of exactly three
fixed strings selected from the combined tier alone, and swapping the two
tiers' severities between the arguments leaves the combined tier unchanged. -/
theorem C7_combined_worst_of_two (a t a2 t2 : ℚ)
    (h1 : altman_risk_level a2 = taffler_risk_level t)
    (h2 : taffler_risk_level t2 = altman_risk_level a) :
    risk_values (calculate_combined_risk a t).1
      = max (risk_values (altman_risk_level a)) (risk_values (taffler_risk_level t))
    ∧ ((calculate_combined_risk a t).2 = combinedRecLow
        ∨ (calculate_combined_risk a t).2 = combinedRecMedium
        ∨ (calculate_combined_risk a t).2 = combinedRecHigh)
    ∧ (calculate_combined_risk a t).2 =
        (if (calculate_combined_risk a t).1 = "low" then combinedRecLow
         else if (calculate_combined_risk a t).1 = "medium" then combinedRecMedium
         else combinedRecHigh)
    ∧ (calculate_combined_risk a t).1 = (calculate_combined_risk a2 t2).1 := by
  refine ⟨?_, ?_, rfl, ?_⟩
  · show risk_values (risk_level_of_value
        (max (risk_values (altman_risk_level a)) (risk_values (taffler_risk_level t))))
      = max (risk_values (altman_risk_level a)) (risk_values (taffler_risk_level t))
    rcases altman_risk_level_cases a with h | h | h <;>
      rcases taffler_risk_level_cases t with h' | h' | h' <;>
        rw [h, h'] <;> decide
  · have hsplit : (calculate_combined_risk a t).2 =
        (if risk_level_of_value
            (max (risk_values (altman_risk_level a)) (risk_values (taffler_risk_level t)))
              = "low" then combinedRecLow
          else if risk_level_of_value
            (max (risk_values (altman_risk_level a)) (risk_values (taffler_risk_level t)))
              = "medium" then combinedRecMedium
          else combinedRecHigh) := rfl
    rw [hsplit]
    split_ifs <;> simp
  · show risk_level_of_value
        (max (risk_values (altman_risk_level a)) (risk_values (taffler_risk_level t)))
      = risk_level_of_value
        (max (risk_values (altman_risk_level a2)) (risk_values (taffler_risk_level t2)))
    rw [h1, h2, Nat.max_comm]

/-- C7 witness: the theorem applied at scores 0 (model A tier "high") and 1
(model B tier "low"), with the severities swapped onto scores 3 (model A tier
"low") and -1 (model B tier "high"). -/
theorem C7_combined_witness :
    risk_values (calculate_combined_risk 0 1).1
      = max (risk_values (altman_risk_level 0)) (risk_values (taffler_risk_level 1))
    ∧ ((calculate_combined_risk 0 1).2 = combinedRecLow
        ∨ (calculate_combined_risk 0 1).2 = combinedRecMedium
        ∨ (calculate_combined_risk 0 1).2 = combinedRecHigh)
    ∧ (calculate_combined_risk 0 1).2 =
        (if (calculate_combined_risk 0 1).1 = "low" then combinedRecLow
         else if (calculate_combined_risk 0 1).1 = "medium" then combinedRecMedium
         else combinedRecHigh)
    ∧ (calculate_combined_risk 0 1).1 = (calculate_combined_risk 3 (-1)).1 :=
  C7_combined_worst_of_two 0 1 3 (-1)
    (by norm_num [altman_risk_level, taffler_risk_level, ALTMAN_SAFE_THRESHOLD,
      ALTMAN_GRAY_THRESHOLD, TAFFLER_LOW_RISK_THRESHOLD, TAFFLER_MEDIUM_RISK_THRESHOLD])
    (by norm_num [altman_risk_level, taffler_risk_level, ALTMAN_SAFE_THRESHOLD,
      ALTMAN_GRAY_THRESHOLD, TAFFLER_LOW_RISK_THRESHOLD, TAFFLER_MEDIUM_RISK_THRESHOLD])

/-- Lexicographic comparison of code-point lists is total. -/
lemma charsLe_total : ∀ a b : List Char, charsLe a b = true ∨ charsLe b a = true := by
  intro a
  induction a with
  | nil => intro b; left; rfl
  | cons x xs ih =>
    intro b
    cases b with
    | nil => right; rfl
    | cons y ys =>
      by_cases h1 : x.toNat < y.toNat
      · left; simp [charsLe, h1]
      · by_cases h2 : y.toNat < x.toNat
        · right; simp [charsLe, h2]
        · rcases ih ys with h | h
          · left; simp [charsLe, h1, h2, h]
          · right; simp [charsLe, h1, h2, h]

/-- Lexicographic comparison of code-point lists is transitive. -/
lemma charsLe_trans :
    ∀ a b c : List Char, charsLe a b = true → charsLe b c = true → charsLe a c = true := by
  intro a
  induction a with
  | nil => intro b c _ _; rfl
  | cons x xs ih =>
    intro b c hab hbc
    cases b with
    | nil => exact absurd hab (by simp [charsLe])
    | cons y ys =>
      cases c with
      | nil => exact absurd hbc (by simp [charsLe])
      | cons z zs =>
        simp only [charsLe] at hab hbc ⊢
        split_ifs at hab hbc ⊢ <;>
          first
            | rfl
            | exact ih ys zs hab hbc
            | exact Bool.noConfusion hab
            | exact Bool.noConfusion hbc
            | (exfalso; omega)

instance strLeRel_total : IsTotal String strLeRel :=
  ⟨fun a b => charsLe_total a.data b.data⟩

instance strLeRel_trans : IsTrans String strLeRel :=
  ⟨fun a b c hab hbc => charsLe_trans a.data b.data c.data hab hbc⟩

/-- C8. Whenever at least one required company field is absent, validation
fails with one single message that lists every missing required field name,
each exactly once, sorted, joined with commas. -/
theorem C8_missing_fields_message (d : FinancialData)
    (h : ∃ f ∈ all_required_fields, hasField d f = false) :
    ∃ L : List String,
      validate_financial_data d
        = (false, some (msgMissingFields ++ String.intercalate ", " L))
      ∧ List.Sorted strLeRel L
      ∧ L.Nodup
      ∧ (∀ f, f ∈ L ↔ (f ∈ all_required_fields ∧ hasField d f = false)) := by
  have hne : (all_required_fields.filter (fun f => ! hasField d f)).isEmpty = false := by
    rcases h with ⟨f, hf, hff⟩
    have hmem : f ∈ all_required_fields.filter (fun g => ! hasField d g) :=
      List.mem_filter.mpr ⟨hf, by simp [hff]⟩
    rcases he : all_required_fields.filter (fun g => ! hasField d g) with _ | ⟨g, gs⟩
    · rw [he] at hmem; cases hmem
    · rfl
  refine ⟨List.insertionSort strLeRel
      (all_required_fields.filter (fun f => ! hasField d f)), ?_, ?_, ?_, ?_⟩
  · unfold validate_financial_data
    dsimp only
    rw [hne]
    rfl
  · exact List.sorted_insertionSort strLeRel _
  · exact (List.perm_insertionSort strLeRel _).nodup_iff.mpr
      (List.Nodup.filter _ (List.nodup_dedup _))
  · intro f
    rw [(List.perm_insertionSort strLeRel _).mem_iff, List.mem_filter]
    simp [Bool.not_eq_true']

/-- C8 witness: the empty input is missing every required field, and the
failure message lists all nine of them, sorted and comma-joined. -/
theorem C8_missing_fields_witness :
    ∃ L : List String,
      validate_financial_data []
        = (false, some (msgMissingFields ++ String.intercalate ", " L))
      ∧ List.Sorted strLeRel L
      ∧ L.Nodup
      ∧ (∀ f, f ∈ L ↔ (f ∈ all_required_fields ∧ hasField [] f = false)) :=
  C8_missing_fields_message [] ⟨"current_assets", by decide⟩

/-- C9. When every required field is present but some designated positive
field is zero or negative, validation fails with a message naming a violating
positive field, and the orchestrator rejects the assessment (it returns that
validation error and evaluates no formula); the value is not clamped or
defaulted. -/
theorem C9_positive_field_rejection (d : FinancialData)
    (hall : ∀ f ∈ all_required_fields, hasField d f = true)
    (hviol : ∃ f ∈ POSITIVE_FIELDS, dictGet d f 0 ≤ 0) :
    ∃ f ∈ POSITIVE_FIELDS, dictGet d f 0 ≤ 0
      ∧ validate_financial_data d = (false, some (msgPositiveField f))
      ∧ calculate_bankruptcy_risk d = .error (msgPositiveField f) := by
  have hsub : ∀ f ∈ POSITIVE_FIELDS, f ∈ all_required_fields := by decide
  have hmiss : all_required_fields.filter (fun f => ! hasField d f) = [] := by
    rw [List.filter_eq_nil_iff]
    intro f hf
    simp [hall f hf]
  obtain ⟨f0, hf0, hle0⟩ := hviol
  have hfind : (POSITIVE_FIELDS.find?
      (fun f => hasField d f && decide (dictGet d f 0 ≤ 0))).isSome := by
    rw [List.find?_isSome]
    exact ⟨f0, hf0, by simp [hall f0 (hsub f0 hf0), hle0]⟩
  obtain ⟨f, hf⟩ := Option.isSome_iff_exists.mp hfind
  have hp := List.find?_some hf
  have hmem := List.mem_of_find?_eq_some hf
  have hle : dictGet d f 0 ≤ 0 := by
    rw [Bool.and_eq_true] at hp
    exact of_decide_eq_true hp.2
  have hval : validate_financial_data d = (false, some (msgPositiveField f)) := by
    unfold validate_financial_data
    dsimp only
    rw [hmiss]
    simp only [List.isEmpty_nil, if_true, hf]
  refine ⟨f, hmem, hle, hval, ?_⟩
  unfold calculate_bankruptcy_risk
  rw [hval]
  rfl

/-- C9 witness: an input with all nine required fields present and
`total_assets = 0` is rejected with the message naming `total_assets`. -/
theorem C9_positive_field_witness :
    ∃ f ∈ POSITIVE_FIELDS,
      dictGet [("current_assets", 1), ("current_liabilities", 1), ("debt_capital", 1),
        ("liabilities", 1), ("sales_profit", 1), ("short_term_liabilities", 1),
        ("long_term_liabilities", 1), ("total_assets", 0), ("sales", 1)] f 0 ≤ 0
      ∧ validate_financial_data
          [("current_assets", 1), ("current_liabilities", 1), ("debt_capital", 1),
           ("liabilities", 1), ("sales_profit", 1), ("short_term_liabilities", 1),
           ("long_term_liabilities", 1), ("total_assets", 0), ("sales", 1)]
          = (false, some (msgPositiveField f))
      ∧ calculate_bankruptcy_risk
          [("current_assets", 1), ("current_liabilities", 1), ("debt_capital", 1),
           ("liabilities", 1), ("sales_profit", 1), ("short_term_liabilities", 1),
           ("long_term_liabilities", 1), ("total_assets", 0), ("sales", 1)]
          = .error (msgPositiveField f) :=
  C9_positive_field_rejection _
    (by intro f hf; fin_cases hf <;> rfl)
    ⟨"total_assets", by decide, by show (0 : ℚ) ≤ 0; norm_num⟩

lemma lookup_restrict_not_mem (d : FinancialData) (ks : List String) (k : String)
    (hk : k ∉ ks) : List.lookup k (restrictKeys d ks) = none := by
  induction ks with
  | nil => rfl
  | cons j js ih =>
    have hkj : (k == j) = false := by
      simp only [beq_eq_false_iff_ne]
      intro he
      exact hk (he ▸ List.mem_cons_self j js)
    have hrest := ih (fun hm => hk (List.mem_cons_of_mem _ hm))
    unfold restrictKeys at hrest ⊢
    rw [List.filterMap_cons]
    cases hl : List.lookup j d with
    | none => exact hrest
    | some v => simp [List.lookup, hkj, hrest]

lemma lookup_restrict_mem (d : FinancialData) (ks : List String) (k : String)
    (hnd : ks.Nodup) (hk : k ∈ ks) :
    List.lookup k (restrictKeys d ks) = List.lookup k d := by
  induction ks with
  | nil => cases hk
  | cons j js ih =>
    unfold restrictKeys at ih ⊢
    rw [List.filterMap_cons]
    by_cases hkj : k = j
    · subst hkj
      cases hl : List.lookup k d with
      | none =>
        have hnot : k ∉ js := (List.nodup_cons.mp hnd).1
        exact lookup_restrict_not_mem d js k hnot
      | some v => simp [List.lookup, hl]
    · have hkjs : k ∈ js := by
        rcases List.mem_cons.mp hk with h | h
        · exact absurd h hkj
        · exact h
      have hrec := ih (List.nodup_cons.mp hnd).2 hkjs
      cases hl : List.lookup j d with
      | none => exact hrec
      | some v => simp [List.lookup, beq_eq_false_iff_ne.mpr hkj, hrec]

lemma pyRound_zero (n : ℕ) : pyRound 0 n = 0 := by
  unfold pyRound roundHalfEven
  norm_num

lemma validate_fst_true_iff (d : FinancialData) :
    (validate_financial_data d).1 = true ↔
      ((all_required_fields.filter (fun f => ! hasField d f)).isEmpty = true
        ∧ POSITIVE_FIELDS.find?
            (fun f => hasField d f && decide (dictGet d f 0 ≤ 0)) = none) := by
  unfold validate_financial_data
  dsimp only
  split_ifs with h1
  · rcases hfind : POSITIVE_FIELDS.find?
        (fun f => hasField d f && decide (dictGet d f 0 ≤ 0)) with _ | f
    · simp [h1, hfind]
    · simp [h1, hfind]
  · simp [h1]

/-- C2. For every input the validator accepts, the orchestrator's model A
result is the constant score 0 with risk level "high": the keys it forwards
(`REQUIRED_FIELDS_ALTMAN`) are disjoint from the keys
`calculate_altman_z_score` reads, so every ratio is computed from the
defaults 0 and 1 and the z-score is 0, which classifies as "high". -/
theorem C2_model_a_constant (d : FinancialData)
    (h : (validate_financial_data d).1 = true) :
    ∃ r : CompanyResult, calculate_bankruptcy_risk d = .ok r
      ∧ r.altman_z_score = 0 ∧ r.altman_risk_level = "high" := by
  obtain ⟨hempty, hfind⟩ := (validate_fst_true_iff d).mp h
  have hval : validate_financial_data d = (true, none) := by
    unfold validate_financial_data
    dsimp only
    rw [if_pos hempty, hfind]
  have hpres : ∀ f ∈ all_required_fields, hasField d f = true := by
    intro f hf
    by_contra hneg
    have hmem : f ∈ all_required_fields.filter (fun g => ! hasField d g) :=
      List.mem_filter.mpr ⟨hf, by simp [Bool.not_eq_true] at hneg ⊢; exact hneg⟩
    rw [List.isEmpty_iff] at hempty
    rw [hempty] at hmem
    cases hmem
  have hsub : ∀ f ∈ POSITIVE_FIELDS, f ∈ all_required_fields := by decide
  have hposf : ∀ f ∈ POSITIVE_FIELDS, ¬ dictGet d f 0 ≤ 0 := by
    intro f hf hcon
    have hbool := List.find?_eq_none.mp hfind f hf
    have hhas := hpres f (hsub f hf)
    simp [hhas, hcon] at hbool
  have hwc : List.lookup "working_capital" (restrictKeys d REQUIRED_FIELDS_ALTMAN) = none :=
    lookup_restrict_not_mem _ _ _ (by decide)
  have hta : List.lookup "total_assets" (restrictKeys d REQUIRED_FIELDS_ALTMAN) = none :=
    lookup_restrict_not_mem _ _ _ (by decide)
  have hre : List.lookup "retained_earnings" (restrictKeys d REQUIRED_FIELDS_ALTMAN) = none :=
    lookup_restrict_not_mem _ _ _ (by decide)
  have heb : List.lookup "ebit" (restrictKeys d REQUIRED_FIELDS_ALTMAN) = none :=
    lookup_restrict_not_mem _ _ _ (by decide)
  have hmv : List.lookup "market_value_equity" (restrictKeys d REQUIRED_FIELDS_ALTMAN) = none :=
    lookup_restrict_not_mem _ _ _ (by decide)
  have htl : List.lookup "total_liabilities" (restrictKeys d REQUIRED_FIELDS_ALTMAN) = none :=
    lookup_restrict_not_mem _ _ _ (by decide)
  have hsl : List.lookup "sales" (restrictKeys d REQUIRED_FIELDS_ALTMAN) = none :=
    lookup_restrict_not_mem _ _ _ (by decide)
  have haltman : calculate_altman_z_score (restrictKeys d REQUIRED_FIELDS_ALTMAN)
      = .ok (0, "high", altmanRecHigh) := by
    unfold calculate_altman_z_score
    dsimp only
    simp only [dictGet, hwc, hta, hre, heb, hmv, htl, hsl, Option.getD_none]
    norm_num [altman_risk_level, ALTMAN_SAFE_THRESHOLD, ALTMAN_GRAY_THRESHOLD]
    decide
  have htcl : List.lookup "current_liabilities" (restrictKeys d REQUIRED_FIELDS_TAFFLER) = none :=
    lookup_restrict_not_mem _ _ _ (by decide)
  have httl : List.lookup "total_liabilities" (restrictKeys d REQUIRED_FIELDS_TAFFLER) = none :=
    lookup_restrict_not_mem _ _ _ (by decide)
  have htta : List.lookup "total_assets" (restrictKeys d REQUIRED_FIELDS_TAFFLER)
      = List.lookup "total_assets" d :=
    lookup_restrict_mem _ _ _ (by decide) (by decide)
  have hta_has : hasField d "total_assets" = true := hpres _ (by decide)
  obtain ⟨ta, hta_val⟩ := Option.isSome_iff_exists.mp hta_has
  have hta_pos : ¬ ta ≤ 0 := by
    intro hle
    apply hposf "total_assets" (by decide)
    show (List.lookup "total_assets" d).getD 0 ≤ 0
    rw [hta_val]
    exact hle
  obtain ⟨tz, tlv, trc, htaffler⟩ :
      ∃ z l r, calculate_taffler_score (restrictKeys d REQUIRED_FIELDS_TAFFLER)
        = .ok (z, l, r) := by
    unfold calculate_taffler_score
    dsimp only
    simp only [dictGet, htcl, httl, htta, hta_val, Option.getD_none, Option.getD_some]
    rw [if_neg hta_pos, if_neg (by norm_num : ¬ (1 : ℚ) ≤ 0), if_neg (by norm_num : ¬ (1 : ℚ) ≤ 0)]
    split_ifs <;> exact ⟨_, _, _, rfl⟩
  refine ⟨CompanyResult.mk (pyRound 0 4) "high" altmanRecHigh (pyRound tz 4) tlv trc
      (calculate_combined_risk 0 tz).1 (calculate_combined_risk 0 tz).2, ?_, ?_, rfl⟩
  · unfold calculate_bankruptcy_risk
    rw [hval]
    dsimp only
    rw [haltman, htaffler]
  · exact pyRound_zero 4

/-- C2 witness: the all-ones company input passes validation and the
orchestrator reports model A score 0 and risk level "high" for it. -/
theorem C2_model_a_constant_witness :
    ∃ r : CompanyResult, calculate_bankruptcy_risk validCompanyInput = .ok r
      ∧ r.altman_z_score = 0 ∧ r.altman_risk_level = "high" :=
  C2_model_a_constant validCompanyInput (by decide)
